import Mathlib

/-!
Shallow embedding of the ExpensoX expense-approval application
(`src/app/...`), covering: the approval-engine stubs
(`app/services/approval_engine.py`), the employee and manager routes
(`app/employee/routes.py`, `app/manager/routes.py`), the SQLAlchemy
models (`app/models/*.py`, `database/models.py`) and the OTP model
(`app/models/otp.py`).

Conventions of the embedding:
* machine integers and database ids are `Nat`; nullable columns are
  `Option _`; SQL `Numeric` amounts are `Rat`;
* timestamps (`datetime.utcnow()`) are `Nat` parameters threaded into
  every function that reads the clock;
* database sessions become explicit state passing over lists of rows,
  in insertion (= primary-key) order, which is the order SQLAlchemy
  yields for the unordered `filter_by(...).first()` / `.all()` queries;
* `secrets.randbelow(900000)` is an explicit parameter `r < 900000`.
-/

/-- Embedding of `app.models.user.UserRole`. -/
inductive UserRole where
  | ADMIN
  | MANAGER
  | EMPLOYEE
deriving DecidableEq, Repr

/-- Embedding of `app.models.expense.ExpenseStatus`. -/
inductive ExpenseStatus where
  | DRAFT
  | PENDING
  | APPROVED
  | REJECTED
  | PAID
deriving DecidableEq, Repr

/-- Embedding of `app.models.approval.ApprovalDecisionStatus`. -/
inductive ApprovalDecisionStatus where
  | PENDING
  | APPROVED
  | REJECTED
  | ESCALATED
deriving DecidableEq, Repr

/-- Embedding of `app.models.approval.ApprovalRuleType`. -/
inductive ApprovalRuleType where
  | PERCENTAGE
  | SPECIFIC
  | HYBRID
deriving DecidableEq, Repr

/-- Lower-cased `.value` of an `ApprovalDecisionStatus`, as used by
`f"Expense {new_status.value.lower()}."` in `manager/routes.py`. -/
def ApprovalDecisionStatus.valueLower : ApprovalDecisionStatus → String
  | .PENDING => "pending"
  | .APPROVED => "approved"
  | .REJECTED => "rejected"
  | .ESCALATED => "escalated"

/-- Embedding of `app.models.user.EmployeeProfile` (columns only;
`manager_id` is nullable). -/
structure EmployeeProfile where
  id : Option Nat
  user_id : Nat
  manager_id : Option Nat
deriving DecidableEq, Repr

/-- Embedding of `app.models.user.User` (scalar columns, plus the
`employee_profile` one-to-one relationship, which SQLAlchemy resolves to
the profile row or `None`). -/
structure User where
  id : Nat
  first_name : String
  last_name : String
  email : String
  password_hash : String
  role : UserRole
  company_id : Nat
  is_active : Bool
  is_email_verified : Bool
  two_factor_enabled : Bool
  created_at : Nat
  employee_profile : Option EmployeeProfile
deriving DecidableEq, Repr

/-- Embedding of `app.models.company.Company` (columns only). -/
structure Company where
  id : Nat
  name : String
  country : String
  currency_code : String
  created_at : Nat
deriving DecidableEq, Repr

/-- Embedding of `app.models.expense.Expense` (columns only; `id` is
`Option` because the primary key is unset until the row is flushed). -/
structure Expense where
  id : Option Nat
  company_id : Nat
  submitter_user_id : Nat
  amount_original : Rat
  currency_original : String
  amount_in_company_currency : Option Rat
  category : String
  description : Option String
  date_spent : Nat
  status : ExpenseStatus
  receipt_path : Option String
  created_at : Nat
deriving DecidableEq, Repr

/-- Embedding of `app.models.approval.ExpenseApproval` (columns only). -/
structure ExpenseApproval where
  id : Option Nat
  expense_id : Option Nat
  approver_user_id : Option Nat
  step_number : Nat
  status : ApprovalDecisionStatus
  comment : Option String
  acted_at : Option Nat
deriving DecidableEq, Repr

/-- A step entry of an approval flow: `create_approval_flow` receives
`Iterable[Dict[str, Any]]` and never inspects the dicts, so a string-keyed
association list is enough. -/
def StepDict : Type := List (String × String)
deriving DecidableEq, Repr

/-- Embedding of `app.models.approval.ApprovalFlow` (columns only;
`steps` is the JSON column). -/
structure ApprovalFlow where
  id : Option Nat
  company_id : Nat
  name : String
  steps : List StepDict
  is_default : Bool
  created_at : Nat
deriving DecidableEq, Repr

/-- Embedding of `app.models.approval.ApprovalRule` (columns only). -/
structure ApprovalRule where
  id : Option Nat
  company_id : Nat
  rule_type : ApprovalRuleType
  percentage_threshold : Option Rat
  specific_approver_id : Option Nat
  created_at : Nat
deriving DecidableEq, Repr

/-! ## `app/services/approval_engine.py` -/

/-- The argument type of `evaluate_rules`: `ApprovalRule | Expense`. -/
inductive RuleEntity where
  | rule (r : ApprovalRule)
  | expense (e : Expense)
deriving DecidableEq, Repr

/-- Embedding of `getattr(entity, "id", None)`: both model classes carry an
`id` attribute (possibly `None` before flush). -/
def RuleEntity.entityId : RuleEntity → Option Nat
  | .rule r => r.id
  | .expense e => e.id

/-- The dict `{"status": ..., "entity": ...}` returned by `evaluate_rules`. -/
structure EvalResult where
  status : String
  entity : Option Nat
deriving DecidableEq, Repr

/-- Embedding of `approval_engine.evaluate_rules`:
`return {"status": "evaluation_pending", "entity": getattr(entity, "id", None)}`. -/
def evaluate_rules (entity : RuleEntity) : EvalResult :=
  { status := "evaluation_pending", entity := entity.entityId }

/-- Embedding of `approval_engine.next_approver_logic`:
`return getattr(user.employee_profile, "manager_id", None) if user.employee_profile else None`
(a loaded profile object is always truthy; the attribute lookup never falls
back because `EmployeeProfile` has a `manager_id` column). -/
def next_approver_logic (user : User) (_expense : Expense) : Option Nat :=
  match user.employee_profile with
  | some profile => profile.manager_id
  | none => none

/-- The dict `{"flow_id": ..., "steps": ...}` returned by
`create_approval_flow`. -/
structure FlowSummary where
  flow_id : Option Nat
  steps : List StepDict
deriving DecidableEq, Repr

/-- Embedding of `approval_engine.create_approval_flow`:
`flow.steps = list(steps); return {"flow_id": flow.id, "steps": flow.steps}`.
The mutation of `flow` becomes returning the updated record. -/
def create_approval_flow (flow : ApprovalFlow) (steps : List StepDict) :
    ApprovalFlow × FlowSummary :=
  let flow' := { flow with steps := steps }
  (flow', { flow_id := flow'.id, steps := flow'.steps })

/-! ## Concrete rows used by witnesses -/

/-- A concrete approval rule (percentage rule, id 7). -/
def ruleW1 : ApprovalRule :=
  { id := some 7, company_id := 1, rule_type := .PERCENTAGE,
    percentage_threshold := some (60 : Rat), specific_approver_id := none,
    created_at := 0 }

/-- A concrete approval rule sharing `ruleW1`'s id but differing in every
rule-evaluation field. -/
def ruleW2 : ApprovalRule :=
  { id := some 7, company_id := 2, rule_type := .SPECIFIC,
    percentage_threshold := none, specific_approver_id := some 42,
    created_at := 5 }

/-- A concrete expense row (id 3, submitted by user 2). -/
def expenseW1 : Expense :=
  { id := some 3, company_id := 1, submitter_user_id := 2,
    amount_original := (100 : Rat), currency_original := "USD",
    amount_in_company_currency := some (100 : Rat), category := "Travel",
    description := none, date_spent := 20250101, status := .PENDING,
    receipt_path := none, created_at := 10 }

/-- A concrete expense sharing `expenseW1`'s id but differing in amount,
status and submitter. -/
def expenseW2 : Expense :=
  { id := some 3, company_id := 2, submitter_user_id := 9,
    amount_original := (999 : Rat), currency_original := "EUR",
    amount_in_company_currency := none, category := "Food",
    description := some "dinner", date_spent := 20250202, status := .APPROVED,
    receipt_path := some "r.png", created_at := 11 }

/-- A concrete user with an employee profile whose manager is user 5. -/
def userW1 : User :=
  { id := 2, first_name := "Ada", last_name := "L", email := "ada@x.io",
    password_hash := "h", role := .EMPLOYEE, company_id := 1,
    is_active := true, is_email_verified := true, two_factor_enabled := false,
    created_at := 0,
    employee_profile := some { id := some 1, user_id := 2, manager_id := some 5 } }

/-! ## C1 -/

/-- C1: `evaluate_rules` returns exactly the placeholder dict
`{"status": "evaluation_pending", "entity": entity.id}` for every entity,
and its result depends only on the entity's `id`: any two rules (or any two
expenses) with equal `id` — whatever their `rule_type`,
`percentage_threshold`, `specific_approver_id`, amount or status — produce
the same result. -/
theorem evaluate_rules_placeholder :
    (∀ entity : RuleEntity,
      evaluate_rules entity =
        { status := "evaluation_pending", entity := entity.entityId }) ∧
    (∀ r₁ r₂ : ApprovalRule, r₁.id = r₂.id →
      evaluate_rules (.rule r₁) = evaluate_rules (.rule r₂)) ∧
    (∀ e₁ e₂ : Expense, e₁.id = e₂.id →
      evaluate_rules (.expense e₁) = evaluate_rules (.expense e₂)) := by
  refine ⟨fun entity => rfl, fun r₁ r₂ h => ?_, fun e₁ e₂ h => ?_⟩
  · simp [evaluate_rules, RuleEntity.entityId, h]
  · simp [evaluate_rules, RuleEntity.entityId, h]

/-- C1 witness: two concrete rules with id 7 but different rule type,
threshold and specific approver evaluate to the same placeholder. -/
theorem evaluate_rules_placeholder_witness :
    evaluate_rules (.rule ruleW1) = evaluate_rules (.rule ruleW2) :=
  evaluate_rules_placeholder.2.1 ruleW1 ruleW2 rfl

/-! ## C2 -/

/-- C2: `next_approver_logic` returns the profile's `manager_id` when the
user has an employee profile, `None` when they have none, and is
independent of the expense argument. -/
theorem next_approver_logic_single_hop :
    (∀ (u : User) (e : Expense) (p : EmployeeProfile),
      u.employee_profile = some p → next_approver_logic u e = p.manager_id) ∧
    (∀ (u : User) (e : Expense),
      u.employee_profile = none → next_approver_logic u e = none) ∧
    (∀ (u : User) (e₁ e₂ : Expense),
      next_approver_logic u e₁ = next_approver_logic u e₂) := by
  refine ⟨fun u e p h => ?_, fun u e h => ?_, fun u e₁ e₂ => rfl⟩
  · simp [next_approver_logic, h]
  · simp [next_approver_logic, h]

/-- C2 witness: for a concrete user whose profile names manager 5, the
lookup returns 5 on two different expenses. -/
theorem next_approver_logic_single_hop_witness :
    next_approver_logic userW1 expenseW1 = some 5 ∧
    next_approver_logic userW1 expenseW2 = some 5 := by
  constructor
  · exact next_approver_logic_single_hop.1 userW1 expenseW1 _ rfl
  · exact next_approver_logic_single_hop.1 userW1 expenseW2 _ rfl

/-! ## C3 -/

/-- C3: `create_approval_flow` stores the given steps verbatim on the flow,
returns `{"flow_id": flow.id, "steps": steps}`, and leaves every other
field of the flow unchanged. -/
theorem create_approval_flow_verbatim :
    ∀ (flow : ApprovalFlow) (steps : List StepDict),
      (create_approval_flow flow steps).1.steps = steps ∧
      (create_approval_flow flow steps).2 =
        { flow_id := flow.id, steps := steps } ∧
      (create_approval_flow flow steps).1.id = flow.id ∧
      (create_approval_flow flow steps).1.name = flow.name ∧
      (create_approval_flow flow steps).1.company_id = flow.company_id ∧
      (create_approval_flow flow steps).1.is_default = flow.is_default ∧
      (create_approval_flow flow steps).1.created_at = flow.created_at := by
  intro flow steps
  exact ⟨rfl, rfl, rfl, rfl, rfl, rfl, rfl⟩

/-! ## Database state for the expense routes -/

/-- The mutable database state the expense routes touch: the `expenses`
and `expense_approvals` tables (rows in primary-key order) together with
the id counters the database assigns at flush time. -/
structure DBState where
  expenses : List Expense
  approvals : List ExpenseApproval
  next_expense_id : Nat
  next_approval_id : Nat
deriving DecidableEq, Repr

/-- The empty database. -/
def DBState.empty : DBState :=
  { expenses := [], approvals := [], next_expense_id := 1, next_approval_id := 1 }

/-- Embedding of `Expense.query.get(expense_id)`: primary-key lookup. -/
def getExpense (s : DBState) (expense_id : Nat) : Option Expense :=
  s.expenses.find? (fun e => decide (e.id = some expense_id))

/-- Embedding of the query in `_update_approval`:
`ExpenseApproval.query.filter_by(expense_id=..., approver_user_id=uid)
.order_by(ExpenseApproval.step_number.desc()).first()` — the first row of
the descending order is a row of maximal `step_number` among the matches. -/
def highestStepApproval (s : DBState) (expense_id uid : Nat) :
    Option ExpenseApproval :=
  (s.approvals.filter
      (fun a => decide (a.expense_id = some expense_id ∧
                        a.approver_user_id = some uid))).foldl
    (fun acc a =>
      match acc with
      | none => some a
      | some b => if b.step_number < a.step_number then some a else some b)
    none

/-- Embedding of the database effect of the happy path of
`employee.submit_expense` (all validation failures return a 400/redirect
before any `db.session.add`, leaving the state untouched). Parameters:
the already-parsed payload fields, the converted amount returned by the
external `currency_service.convert_currency` call, the result `profile` of
the `EmployeeProfile.query.filter_by(user_id=current_user.id).first()`
query, and the clock `now`. Returns the new state with the flushed expense
row and the single approval row added. The Python fallback
`if approver_id is None and profile and profile.manager_id` treats
`manager_id == 0` as falsy. -/
def submit_expense (s : DBState) (current_user : User)
    (profile : Option EmployeeProfile) (amount_original : Rat)
    (currency : String) (converted : Option Rat) (category : String)
    (description : Option String) (date_spent : Nat)
    (receipt_path : Option String) (now : Nat) :
    DBState × Expense × ExpenseApproval :=
  let expense : Expense :=
    { id := some s.next_expense_id,
      company_id := current_user.company_id,
      submitter_user_id := current_user.id,
      amount_original := amount_original,
      currency_original := currency,
      amount_in_company_currency := converted,
      category := category,
      description := description,
      date_spent := date_spent,
      status := .PENDING,
      receipt_path := receipt_path,
      created_at := now }
  let approver₀ := next_approver_logic current_user expense
  let approver_id :=
    match approver₀ with
    | some a => some a
    | none =>
      match profile with
      | some p =>
        match p.manager_id with
        | some m => if m ≠ 0 then some m else none
        | none => none
      | none => none
  let approval : ExpenseApproval :=
    { id := some s.next_approval_id,
      expense_id := some s.next_expense_id,
      approver_user_id := approver_id,
      step_number := 1,
      status := .PENDING,
      comment := none,
      acted_at := none }
  ({ expenses := s.expenses ++ [expense],
     approvals := s.approvals ++ [approval],
     next_expense_id := s.next_expense_id + 1,
     next_approval_id := s.next_approval_id + 1 },
   expense, approval)

/-- A JSON response of the manager decision endpoints. -/
inductive ApiResult where
  | err (status : Nat) (msg : String)
  | ok (msg : String) (approval : ExpenseApproval) (expense : Expense)
deriving DecidableEq, Repr

/-- Embedding of `manager._update_approval(expense_id, new_status, comment)`
run as `current_user.id = uid` at clock `now`. Mutations of the fetched
rows become rewriting the rows (identified by primary key) in the state;
both 404 branches return before any mutation. The
`approval_engine.next_approver_logic(current_user, expense)` call in the
APPROVED branch has its return value discarded, so it contributes nothing
to the state. -/
def _update_approval (s : DBState) (uid expense_id : Nat)
    (new_status : ApprovalDecisionStatus) (comment : Option String)
    (now : Nat) : DBState × ApiResult :=
  match highestStepApproval s expense_id uid with
  | none => (s, .err 404 "No pending approval found for this expense.")
  | some approval =>
    if approval.status ≠ ApprovalDecisionStatus.PENDING then
      (s, .err 404 "No pending approval found for this expense.")
    else
      match getExpense s expense_id with
      | none => (s, .err 404 "Expense not found.")
      | some expense =>
        let approval' :=
          { approval with status := new_status, comment := comment,
                          acted_at := some now }
        let expense' :=
          if new_status = ApprovalDecisionStatus.APPROVED then
            { expense with status := ExpenseStatus.APPROVED }
          else if new_status = ApprovalDecisionStatus.REJECTED then
            { expense with status := ExpenseStatus.REJECTED }
          else expense
        ({ s with
            approvals := s.approvals.map
              (fun a => if a.id = approval.id then approval' else a),
            expenses := s.expenses.map
              (fun e => if e.id = expense.id then expense' else e) },
         .ok ("Expense " ++ new_status.valueLower ++ ".") approval' expense')

/-- Embedding of the `manager.approve_expense` endpoint body. -/
def approve_expense (s : DBState) (uid expense_id : Nat)
    (comment : Option String) (now : Nat) : DBState × ApiResult :=
  _update_approval s uid expense_id .APPROVED comment now

/-- Embedding of the `manager.reject_expense` endpoint body. -/
def reject_expense (s : DBState) (uid expense_id : Nat)
    (comment : Option String) (now : Nat) : DBState × ApiResult :=
  _update_approval s uid expense_id .REJECTED comment now

/-- States reachable from the empty database through the state-changing
routes: expense submission (its validation-error paths return before any
mutation) and the manager decision endpoints (which only ever pass
`APPROVED` or `REJECTED` to `_update_approval`). -/
inductive Reachable : DBState → Prop where
  | init : Reachable DBState.empty
  | submit (s : DBState) (u : User) (profile : Option EmployeeProfile)
      (amt : Rat) (cur : String) (conv : Option Rat) (cat : String)
      (desc : Option String) (ds : Nat) (rp : Option String) (now : Nat) :
      Reachable s →
      Reachable (submit_expense s u profile amt cur conv cat desc ds rp now).1
  | approve (s : DBState) (uid eid : Nat) (c : Option String) (now : Nat) :
      Reachable s → Reachable (approve_expense s uid eid c now).1
  | reject (s : DBState) (uid eid : Nat) (c : Option String) (now : Nat) :
      Reachable s → Reachable (reject_expense s uid eid c now).1

/-! ## Helper lemmas about the decision update -/

/-- The fold in `highestStepApproval` only ever returns the accumulator or
an element of the list. -/
theorem foldl_maxStep_mem (l : List ExpenseApproval)
    (acc : Option ExpenseApproval) (x : ExpenseApproval)
    (h : l.foldl
      (fun acc a =>
        match acc with
        | none => some a
        | some b => if b.step_number < a.step_number then some a else some b)
      acc = some x) :
    acc = some x ∨ x ∈ l := by
  induction l generalizing acc with
  | nil => exact Or.inl h
  | cons a l ih =>
    rcases ih _ h with h' | h'
    · match acc with
      | none =>
        simp only [Option.some.injEq] at h'
        exact Or.inr (h' ▸ List.mem_cons_self a l)
      | some b =>
        by_cases hb : b.step_number < a.step_number
        · simp only [hb, if_pos] at h'
          simp only [Option.some.injEq] at h'
          exact Or.inr (h' ▸ List.mem_cons_self a l)
        · simp only [hb, if_neg, not_false_iff] at h'
          exact Or.inl h'
    · exact Or.inr (List.mem_cons_of_mem a h')

/-- A hit of `highestStepApproval` is a row of the approvals table matching
the two filters. -/
theorem highestStepApproval_mem (s : DBState) (eid uid : Nat)
    (a : ExpenseApproval) (h : highestStepApproval s eid uid = some a) :
    a ∈ s.approvals ∧ a.expense_id = some eid ∧ a.approver_user_id = some uid := by
  unfold highestStepApproval at h
  rcases foldl_maxStep_mem _ _ _ h with h' | h'
  · cases h'
  · rw [List.mem_filter] at h'
    refine ⟨h'.1, ?_⟩
    have := h'.2
    simpa using this

/-- `_update_approval` never changes the number of approval rows, and every
row of the updated table carries the `step_number` of some row of the old
table (the updated row keeps its step; all others are untouched). -/
theorem update_approval_steps (s : DBState) (uid eid : Nat)
    (st : ApprovalDecisionStatus) (c : Option String) (now : Nat) :
    (_update_approval s uid eid st c now).1.approvals.length
      = s.approvals.length ∧
    ∀ x ∈ (_update_approval s uid eid st c now).1.approvals,
      ∃ y ∈ s.approvals, x.step_number = y.step_number := by
  unfold _update_approval
  cases hfind : highestStepApproval s eid uid with
  | none =>
    exact ⟨rfl, fun x hx => ⟨x, hx, rfl⟩⟩
  | some a =>
    dsimp only
    by_cases hst : a.status ≠ ApprovalDecisionStatus.PENDING
    · rw [if_pos hst]
      exact ⟨rfl, fun x hx => ⟨x, hx, rfl⟩⟩
    · rw [if_neg hst]
      cases hget : getExpense s eid with
      | none =>
        exact ⟨rfl, fun x hx => ⟨x, hx, rfl⟩⟩
      | some e =>
        constructor
        · exact List.length_map _ _
        · intro x hx
          rw [List.mem_map] at hx
          obtain ⟨y, hy, hxy⟩ := hx
          by_cases hid : y.id = a.id
          · refine ⟨a, (highestStepApproval_mem s eid uid a hfind).1, ?_⟩
            rw [← hxy]
            simp [hid]
          · refine ⟨y, hy, ?_⟩
            rw [← hxy]
            simp [hid]

/-- In every state reachable through the routes, every approval row has
`step_number = 1`. -/
theorem reachable_steps_one (s : DBState) (h : Reachable s) :
    ∀ a ∈ s.approvals, a.step_number = 1 := by
  induction h with
  | init => intro a ha; cases ha
  | submit s u profile amt cur conv cat desc ds rp now _ ih =>
    intro a ha
    simp only [submit_expense, List.mem_append, List.mem_singleton] at ha
    rcases ha with ha | ha
    · exact ih a ha
    · rw [ha]
  | approve s uid eid c now _ ih =>
    intro a ha
    obtain ⟨y, hy, hstep⟩ := (update_approval_steps s uid eid .APPROVED c now).2 a ha
    rw [hstep]; exact ih y hy
  | reject s uid eid c now _ ih =>
    intro a ha
    obtain ⟨y, hy, hstep⟩ := (update_approval_steps s uid eid .REJECTED c now).2 a ha
    rw [hstep]; exact ih y hy

/-! ## C4 -/

/-- C4: the workflow never advances beyond a single step. Expense
submission appends exactly one approval row, with `step_number = 1`; a
manager decision (`_update_approval`, which the endpoints only call with
`APPROVED`/`REJECTED`, whose model takes only the manager's id because the
`next_approver_logic` return value is discarded, and which consults no
`ApprovalRule`) never adds an approval row and never changes a step
number; hence every approval row of every reachable state has
`step_number = 1`. -/
theorem approval_workflow_single_step :
    (∀ (s : DBState) (u : User) (profile : Option EmployeeProfile)
        (amt : Rat) (cur : String) (conv : Option Rat) (cat : String)
        (desc : Option String) (ds : Nat) (rp : Option String) (now : Nat),
      (submit_expense s u profile amt cur conv cat desc ds rp now).1.approvals
        = s.approvals ++
            [(submit_expense s u profile amt cur conv cat desc ds rp now).2.2] ∧
      (submit_expense s u profile amt cur conv cat desc ds rp now).2.2.step_number
        = 1) ∧
    (∀ (s : DBState) (uid eid : Nat) (st : ApprovalDecisionStatus)
        (c : Option String) (now : Nat),
      (_update_approval s uid eid st c now).1.approvals.length
        = s.approvals.length ∧
      ∀ x ∈ (_update_approval s uid eid st c now).1.approvals,
        ∃ y ∈ s.approvals, x.step_number = y.step_number) ∧
    (∀ s : DBState, Reachable s → ∀ a ∈ s.approvals, a.step_number = 1) := by
  refine ⟨fun s u profile amt cur conv cat desc ds rp now => ⟨rfl, rfl⟩,
          fun s uid eid st c now => update_approval_steps s uid eid st c now,
          fun s h => reachable_steps_one s h⟩

/-- C4 witness: in the concrete reachable state obtained by one submission
into the empty database, the single approval row created has step 1. -/
theorem approval_workflow_single_step_witness :
    ((submit_expense DBState.empty userW1 none 100 "USD" none "Travel"
        none 20250101 none 5).2.2).step_number = 1 :=
  approval_workflow_single_step.2.2 _
    (Reachable.submit DBState.empty userW1 none 100 "USD" none "Travel"
      none 20250101 none 5 Reachable.init)
    _ (by decide)

/-! ## C5 -/

/-- C5: the manager decision endpoints are atomic on error. If the
manager's highest-step approval for the expense is missing or not
`PENDING`, or the expense row is missing, both endpoints return a 404
error and leave the state untouched; otherwise they rewrite exactly the
fetched approval row (new status, the comment, `acted_at := now`) and the
expense row (new status), returning the updated rows. -/
theorem manager_decision_atomic :
    (∀ (s : DBState) (uid eid : Nat) (c : Option String) (now : Nat),
      highestStepApproval s eid uid = none →
        approve_expense s uid eid c now =
          (s, .err 404 "No pending approval found for this expense.") ∧
        reject_expense s uid eid c now =
          (s, .err 404 "No pending approval found for this expense.")) ∧
    (∀ (s : DBState) (uid eid : Nat) (c : Option String) (now : Nat)
        (a : ExpenseApproval),
      highestStepApproval s eid uid = some a →
      a.status ≠ ApprovalDecisionStatus.PENDING →
        approve_expense s uid eid c now =
          (s, .err 404 "No pending approval found for this expense.") ∧
        reject_expense s uid eid c now =
          (s, .err 404 "No pending approval found for this expense.")) ∧
    (∀ (s : DBState) (uid eid : Nat) (c : Option String) (now : Nat)
        (a : ExpenseApproval),
      highestStepApproval s eid uid = some a →
      a.status = ApprovalDecisionStatus.PENDING →
      getExpense s eid = none →
        approve_expense s uid eid c now = (s, .err 404 "Expense not found.") ∧
        reject_expense s uid eid c now = (s, .err 404 "Expense not found.")) ∧
    (∀ (s : DBState) (uid eid : Nat) (c : Option String) (now : Nat)
        (a : ExpenseApproval) (e : Expense),
      highestStepApproval s eid uid = some a →
      a.status = ApprovalDecisionStatus.PENDING →
      getExpense s eid = some e →
        approve_expense s uid eid c now =
          ({ s with
              approvals := s.approvals.map
                (fun x => if x.id = a.id then
                  { a with status := ApprovalDecisionStatus.APPROVED,
                           comment := c, acted_at := some now } else x),
              expenses := s.expenses.map
                (fun x => if x.id = e.id then
                  { e with status := ExpenseStatus.APPROVED } else x) },
           .ok "Expense approved."
             { a with status := ApprovalDecisionStatus.APPROVED,
                      comment := c, acted_at := some now }
             { e with status := ExpenseStatus.APPROVED }) ∧
        reject_expense s uid eid c now =
          ({ s with
              approvals := s.approvals.map
                (fun x => if x.id = a.id then
                  { a with status := ApprovalDecisionStatus.REJECTED,
                           comment := c, acted_at := some now } else x),
              expenses := s.expenses.map
                (fun x => if x.id = e.id then
                  { e with status := ExpenseStatus.REJECTED } else x) },
           .ok "Expense rejected."
             { a with status := ApprovalDecisionStatus.REJECTED,
                      comment := c, acted_at := some now }
             { e with status := ExpenseStatus.REJECTED })) := by
  refine ⟨?_, ?_, ?_, ?_⟩
  · intro s uid eid c now h
    constructor
    · simp only [approve_expense, _update_approval, h]
    · simp only [reject_expense, _update_approval, h]
  · intro s uid eid c now a h hst
    constructor
    · simp only [approve_expense, _update_approval, h]
      rw [if_pos hst]
    · simp only [reject_expense, _update_approval, h]
      rw [if_pos hst]
  · intro s uid eid c now a h hst hget
    constructor
    · simp only [approve_expense, _update_approval, h]
      rw [if_neg (by simp [hst]), hget]
    · simp only [reject_expense, _update_approval, h]
      rw [if_neg (by simp [hst]), hget]
  · intro s uid eid c now a e h hst hget
    constructor
    · simp only [approve_expense, _update_approval, h]
      rw [if_neg (by simp [hst]), hget]
      simp [ApprovalDecisionStatus.valueLower]
    · simp only [reject_expense, _update_approval, h]
      rw [if_neg (by simp [hst]), hget]
      simp [ApprovalDecisionStatus.valueLower]

/-- C5 witness: on the empty database there is no matching approval, so
approving expense 1 as manager 1 returns the 404 and the unchanged state. -/
theorem manager_decision_atomic_witness :
    approve_expense DBState.empty 1 1 none 0 =
      (DBState.empty, .err 404 "No pending approval found for this expense.") ∧
    reject_expense DBState.empty 1 1 none 0 =
      (DBState.empty, .err 404 "No pending approval found for this expense.") :=
  manager_decision_atomic.1 DBState.empty 1 1 none 0 rfl

/-! ## Employee views (`app/employee/routes.py`) -/

/-- Insertion of an expense into a list sorted by `created_at` descending. -/
def insertByCreatedDesc (e : Expense) : List Expense → List Expense
  | [] => [e]
  | x :: xs =>
    if e.created_at ≤ x.created_at then x :: insertByCreatedDesc e xs
    else e :: x :: xs

/-- Embedding of `.order_by(Expense.created_at.desc())`: sort by
`created_at`, newest first (ties keep table order, which is how the
database may serve them). -/
def orderByCreatedDesc : List Expense → List Expense
  | [] => []
  | x :: xs => insertByCreatedDesc x (orderByCreatedDesc xs)

/-- Embedding of the query of `employee.list_expenses`:
`Expense.query.filter_by(submitter_user_id=current_user.id)
.order_by(Expense.created_at.desc()).all()`. -/
def list_expenses (s : DBState) (uid : Nat) : List Expense :=
  orderByCreatedDesc
    (s.expenses.filter (fun x => decide (x.submitter_user_id = uid)))

/-- The response body of `employee.expense_detail`. -/
inductive DetailResult where
  | err (status : Nat) (msg : String)
  | ok (expense : Expense) (approvals : List ExpenseApproval)
deriving DecidableEq, Repr

/-- Embedding of `employee.expense_detail(expense_id)` for
`current_user.id = uid`: one query filtered by both the expense id and the
caller's id; on a miss the 404 body, on a hit the expense with the
approval history of that expense id. -/
def expense_detail (s : DBState) (uid eid : Nat) : DetailResult :=
  match s.expenses.find?
      (fun x => decide (x.id = some eid ∧ x.submitter_user_id = uid)) with
  | none => .err 404 "Expense not found."
  | some e => .ok e (s.approvals.filter (fun a => decide (a.expense_id = some eid)))

/-- Outcome of a route guarded by `login_required` and `role_required`. -/
inductive RouteResult (α : Type) where
  | denied (status : Nat) (msg : String)
  | ok (v : α)
deriving DecidableEq, Repr

/-- Embedding of `app.utils.helpers.role_required(*roles)` applied to a
view: 401 when unauthenticated, 403 when the caller's role is not among
`roles`, otherwise the view's result. -/
def role_required {α : Type} (roles : List UserRole) (current_user : User)
    (is_authenticated : Bool) (view : Unit → α) : RouteResult α :=
  if !is_authenticated then .denied 401 "Authentication required."
  else if current_user.role ∉ roles then .denied 403 "Insufficient permissions."
  else .ok (view ())

/-- The `employee.list_expenses` endpoint: the guarded query. -/
def list_expenses_route (s : DBState) (current_user : User)
    (is_authenticated : Bool) : RouteResult (List Expense) :=
  role_required [UserRole.EMPLOYEE] current_user is_authenticated
    (fun _ => list_expenses s current_user.id)

/-- The `employee.expense_detail` endpoint: the guarded detail view. -/
def expense_detail_route (s : DBState) (current_user : User)
    (is_authenticated : Bool) (eid : Nat) : RouteResult DetailResult :=
  role_required [UserRole.EMPLOYEE] current_user is_authenticated
    (fun _ => expense_detail s current_user.id eid)

/-- `insertByCreatedDesc` is a permutation of consing. -/
theorem insertByCreatedDesc_perm (e : Expense) (l : List Expense) :
    (insertByCreatedDesc e l).Perm (e :: l) := by
  induction l with
  | nil => exact List.Perm.refl _
  | cons x xs ih =>
    by_cases h : e.created_at ≤ x.created_at
    · rw [insertByCreatedDesc, if_pos h]
      exact (ih.cons x).trans (List.Perm.swap e x xs)
    · rw [insertByCreatedDesc, if_neg h]

/-- `orderByCreatedDesc` permutes its input. -/
theorem orderByCreatedDesc_perm (l : List Expense) :
    (orderByCreatedDesc l).Perm l := by
  induction l with
  | nil => exact List.Perm.refl _
  | cons x xs ih =>
    exact (insertByCreatedDesc_perm x (orderByCreatedDesc xs)).trans (ih.cons x)

/-! ## C6 -/

/-- C6: employee expense views are isolated per submitter. For an
authenticated `EMPLOYEE` the guards pass the views through unchanged; the
listing is exactly (a permutation, and membership-wise the set of) the
caller's own expenses; asking for an expense id that no row owned by the
caller carries — whether the id belongs to another user or to nobody —
yields the identical 404 body; and the listing depends only on the
caller's own rows: two databases agreeing on those rows produce equal
listings. -/
theorem employee_expense_isolation :
    (∀ (s : DBState) (u : User), u.role = UserRole.EMPLOYEE →
      list_expenses_route s u true = .ok (list_expenses s u.id) ∧
      ∀ eid, expense_detail_route s u true eid = .ok (expense_detail s u.id eid)) ∧
    (∀ (s : DBState) (uid : Nat),
      (list_expenses s uid).Perm
        (s.expenses.filter (fun x => decide (x.submitter_user_id = uid)))) ∧
    (∀ (s : DBState) (uid : Nat) (e : Expense),
      e ∈ list_expenses s uid ↔ e ∈ s.expenses ∧ e.submitter_user_id = uid) ∧
    (∀ (s : DBState) (uid eid : Nat),
      (∀ e ∈ s.expenses, e.id = some eid → e.submitter_user_id ≠ uid) →
      expense_detail s uid eid = .err 404 "Expense not found.") ∧
    (∀ (s₁ s₂ : DBState) (uid : Nat),
      s₁.expenses.filter (fun x => decide (x.submitter_user_id = uid))
        = s₂.expenses.filter (fun x => decide (x.submitter_user_id = uid)) →
      list_expenses s₁ uid = list_expenses s₂ uid) := by
  have hperm : ∀ (s : DBState) (uid : Nat),
      (list_expenses s uid).Perm
        (s.expenses.filter (fun x => decide (x.submitter_user_id = uid))) :=
    fun s uid => orderByCreatedDesc_perm _
  refine ⟨?_, hperm, ?_, ?_, ?_⟩
  · intro s u hrole
    constructor
    · simp [list_expenses_route, role_required, hrole]
    · intro eid
      simp [expense_detail_route, role_required, hrole]
  · intro s uid e
    rw [(hperm s uid).mem_iff, List.mem_filter]
    simp
  · intro s uid eid h
    unfold expense_detail
    have hnone : s.expenses.find?
        (fun x => decide (x.id = some eid ∧ x.submitter_user_id = uid)) = none := by
      rw [List.find?_eq_none]
      intro x hx
      simp only [decide_eq_true_eq, not_and]
      intro hid
      exact h x hx hid
    rw [hnone]
  · intro s₁ s₂ uid h
    unfold list_expenses
    rw [h]

/-- C6 witness: in a database holding one expense of user 2 (id 3) and one
of user 9 (id 4), user 2's listing contains their own expense, and asking
for user 9's expense id yields the same 404 as asking for an absent id. -/
theorem employee_expense_isolation_witness :
    (expenseW1 ∈ list_expenses
        { expenses := [expenseW1,
            { expenseW2 with id := some 4, submitter_user_id := 9 }],
          approvals := [], next_expense_id := 5, next_approval_id := 1 } 2
      ↔ True) ∧
    expense_detail
        { expenses := [expenseW1,
            { expenseW2 with id := some 4, submitter_user_id := 9 }],
          approvals := [], next_expense_id := 5, next_approval_id := 1 } 2 4
      = .err 404 "Expense not found." ∧
    expense_detail
        { expenses := [expenseW1,
            { expenseW2 with id := some 4, submitter_user_id := 9 }],
          approvals := [], next_expense_id := 5, next_approval_id := 1 } 2 99
      = .err 404 "Expense not found." := by
  refine ⟨?_, ?_, ?_⟩
  · rw [employee_expense_isolation.2.2.1]
    simp [expenseW1]
  · exact employee_expense_isolation.2.2.2.1 _ 2 4 (by decide)
  · exact employee_expense_isolation.2.2.2.1 _ 2 99 (by decide)

/-! ## The second model variant (`src/database/models.py`) -/

/-- A Python value as it appears in a serialized record. -/
inductive PyVal where
  | vNat (n : Nat)
  | vStr (s : String)
  | vBool (b : Bool)
  | vOptNat (n : Option Nat)
  | vOptStr (s : Option String)
deriving DecidableEq, Repr

/-- The `.value` string of a `UserRole`, used by `User.to_dict`. -/
def UserRole.value : UserRole → String
  | .ADMIN => "ADMIN"
  | .MANAGER => "MANAGER"
  | .EMPLOYEE => "EMPLOYEE"

/-- Embedding of `app.models.user.User.to_dict` (keys in source order). -/
def User.to_dict (u : User) : List (String × PyVal) :=
  [("id", .vNat u.id),
   ("first_name", .vStr u.first_name),
   ("last_name", .vStr u.last_name),
   ("full_name", .vStr (u.first_name ++ " " ++ u.last_name)),
   ("email", .vStr u.email),
   ("role", .vStr u.role.value),
   ("company_id", .vNat u.company_id),
   ("is_active", .vBool u.is_active),
   ("is_email_verified", .vBool u.is_email_verified),
   ("two_factor_enabled", .vBool u.two_factor_enabled),
   ("created_at", .vNat u.created_at)]

/-- Embedding of `app.models.company.Company.to_dict` (keys in source
order). -/
def Company.to_dict (c : Company) : List (String × PyVal) :=
  [("id", .vNat c.id),
   ("name", .vStr c.name),
   ("country", .vStr c.country),
   ("currency_code", .vStr c.currency_code),
   ("created_at", .vNat c.created_at)]

/-- Embedding of the `Company` model of `src/database/models.py` (its
columns: `currency`, not `currency_code`). -/
structure DbModels.Company where
  id : Nat
  name : String
  country : String
  currency : String
  created_at : Nat
deriving DecidableEq, Repr

/-- Embedding of the `User` model of `src/database/models.py` (a single
`name` column, string `role`, nullable `company_id`, inline OTP fields). -/
structure DbModels.User where
  id : Nat
  name : String
  email : String
  password_hash : String
  role : String
  company_id : Option Nat
  is_manager_approver : Bool
  manager_id : Option Nat
  is_verified : Bool
  otp_code : Option String
  otp_expiry : Option Nat
  created_at : Nat
deriving DecidableEq, Repr

/-- The record a `database/models.py` `Company` row exposes: its column
attributes, in declaration order (this variant defines no `to_dict`). -/
def DbModels.Company.record (c : DbModels.Company) : List (String × PyVal) :=
  [("id", .vNat c.id),
   ("name", .vStr c.name),
   ("country", .vStr c.country),
   ("currency", .vStr c.currency),
   ("created_at", .vNat c.created_at)]

/-- The record a `database/models.py` `User` row exposes: its column
attributes, in declaration order. -/
def DbModels.User.record (u : DbModels.User) : List (String × PyVal) :=
  [("id", .vNat u.id),
   ("name", .vStr u.name),
   ("email", .vStr u.email),
   ("password_hash", .vStr u.password_hash),
   ("role", .vStr u.role),
   ("company_id", .vOptNat u.company_id),
   ("is_manager_approver", .vBool u.is_manager_approver),
   ("manager_id", .vOptNat u.manager_id),
   ("is_verified", .vBool u.is_verified),
   ("otp_code", .vOptStr u.otp_code),
   ("otp_expiry", .vOptNat u.otp_expiry),
   ("created_at", .vNat u.created_at)]

/-! ## C7 -/

/-- C7: the two model variants define unequal record shapes. The
`database/models.py` `Company` exposes `currency` where the
`app/models/company.py` one exposes `currency_code`; the
`database/models.py` `User` has a single `name` field where the
`app/models/user.py` one has `first_name`/`last_name`; and since the key
skeletons are fixed, no mapping of one variant's rows into the other makes
the serialized records agree on even a single instance, in either
direction, for either model. -/
theorem model_variants_incompatible :
    (∀ c : DbModels.Company,
      c.record.map Prod.fst = ["id", "name", "country", "currency", "created_at"]) ∧
    (∀ c : Company,
      c.to_dict.map Prod.fst = ["id", "name", "country", "currency_code", "created_at"]) ∧
    (∀ u : DbModels.User,
      "name" ∈ u.record.map Prod.fst ∧
      "first_name" ∉ u.record.map Prod.fst ∧
      "last_name" ∉ u.record.map Prod.fst) ∧
    (∀ u : User,
      "first_name" ∈ u.to_dict.map Prod.fst ∧
      "last_name" ∈ u.to_dict.map Prod.fst ∧
      "name" ∉ u.to_dict.map Prod.fst) ∧
    (∀ (f : DbModels.Company → Company) (c : DbModels.Company),
      (f c).to_dict.map Prod.fst ≠ c.record.map Prod.fst) ∧
    (∀ (g : Company → DbModels.Company) (c : Company),
      (g c).record.map Prod.fst ≠ c.to_dict.map Prod.fst) ∧
    (∀ (f : DbModels.User → User) (u : DbModels.User),
      (f u).to_dict.map Prod.fst ≠ u.record.map Prod.fst) ∧
    (∀ (g : User → DbModels.User) (u : User),
      (g u).record.map Prod.fst ≠ u.to_dict.map Prod.fst) := by
  refine ⟨fun c => rfl, fun c => rfl, fun u => by simp [DbModels.User.record],
          fun u => by simp [User.to_dict], ?_, ?_, ?_, ?_⟩
  · intro f c
    simp [Company.to_dict, DbModels.Company.record]
  · intro g c
    simp [Company.to_dict, DbModels.Company.record]
  · intro f u
    simp [User.to_dict, DbModels.User.record]
  · intro g u
    simp [User.to_dict, DbModels.User.record]

/-! ## OTP model (`app/models/otp.py`) -/

/-- Little-endian decimal digits with explicit fuel (the fuel bound lets
the definition be structurally recursive; `decDigitsAux n n` is exact). -/
def decDigitsAux : Nat → Nat → List Nat
  | _, 0 => []
  | 0, _ + 1 => []
  | fuel + 1, n + 1 => (n + 1) % 10 :: decDigitsAux fuel ((n + 1) / 10)

/-- Little-endian decimal digits of a natural number. -/
def decDigits (n : Nat) : List Nat := decDigitsAux n n

/-- Embedding of Python `str` on a non-negative integer: its decimal
representation, most significant digit first. -/
def natToDecString (n : Nat) : String :=
  if n = 0 then "0"
  else String.mk ((decDigits n).reverse.map Nat.digitChar)

/-- The integer value of a decimal digit string (how a reader interprets
the OTP code). -/
def decValue (s : String) : Nat :=
  s.data.foldl (fun acc c => 10 * acc + (c.toNat - 48)) 0

/-- Embedding of `app.models.otp.OTPVerification` (columns only). -/
structure OTPVerification where
  id : Option Nat
  user_id : Nat
  otp_code : String
  otp_type : String
  email : String
  is_used : Bool
  attempts : Nat
  max_attempts : Nat
  created_at : Nat
  expires_at : Nat
  verified_at : Option Nat
deriving DecidableEq, Repr

/-- Embedding of the static method `OTPVerification.generate_otp`:
`str(secrets.randbelow(900000) + 100000)`, with the random draw
`r < 900000` an explicit parameter. -/
def OTPVerification.generate_otp (r : Nat) : String :=
  natToDecString (r + 100000)

/-- Embedding of `OTPVerification.__init__(user_id, otp_type, email,
validity_minutes=10)` run at clock `now` (in minutes) with random draw
`r`: the column defaults `is_used=False`, `attempts=0`, `max_attempts=5`
apply, and `expires_at = utcnow() + timedelta(minutes=validity_minutes)`. -/
def OTPVerification.init (user_id : Nat) (otp_type email : String)
    (validity_minutes r now : Nat) : OTPVerification :=
  { id := none,
    user_id := user_id,
    otp_code := OTPVerification.generate_otp r,
    otp_type := otp_type,
    email := email,
    is_used := false,
    attempts := 0,
    max_attempts := 5,
    created_at := now,
    expires_at := now + validity_minutes,
    verified_at := none }

/-- Embedding of `OTPVerification.is_valid`: not used, attempts under the
cap, and `utcnow() <= expires_at`. -/
def OTPVerification.is_valid (o : OTPVerification) (now : Nat) : Bool :=
  !o.is_used && decide (o.attempts < o.max_attempts) &&
    decide (now ≤ o.expires_at)

/-- Embedding of `OTPVerification.verify_code(provided_code)` at clock
`now`: the attempts counter is incremented first, unconditionally; then
the (already incremented) record must be valid and the codes must match. -/
def OTPVerification.verify_code (o : OTPVerification) (provided_code : String)
    (now : Nat) : OTPVerification × Bool :=
  let o₁ := { o with attempts := o.attempts + 1 }
  if !(o₁.is_valid now) then (o₁, false)
  else if o₁.otp_code = provided_code then
    ({ o₁ with is_used := true, verified_at := some now }, true)
  else (o₁, false)

/-- A sequence of `verify_code` calls on the same record, each with a
provided code and a clock reading; returns the final record and the list
of returned booleans. -/
def runVerify (o : OTPVerification) : List (String × Nat) → OTPVerification × List Bool
  | [] => (o, [])
  | (code, now) :: rest =>
    let r := o.verify_code code now
    let rr := runVerify r.1 rest
    (rr.1, r.2 :: rr.2)

/-- The WHERE clause of `OTPVerification.get_active_otp`: same user and
type, unused, `expires_at > utcnow()`, attempts under the cap. -/
def OTPVerification.activeFilter (user_id : Nat) (otp_type : String)
    (now : Nat) (o : OTPVerification) : Bool :=
  decide (o.user_id = user_id) && decide (o.otp_type = otp_type) &&
    !o.is_used && decide (now < o.expires_at) &&
    decide (o.attempts < o.max_attempts)

/-- Embedding of the classmethod `OTPVerification.get_active_otp`: the
first row satisfying the filter. -/
def OTPVerification.get_active_otp (recs : List OTPVerification)
    (user_id : Nat) (otp_type : String) (now : Nat) : Option OTPVerification :=
  recs.find? (OTPVerification.activeFilter user_id otp_type now)

/-- Embedding of the classmethod `OTPVerification.create_otp`: mark every
unused row of the same `(user_id, otp_type)` as used, then append a fresh
record built by `__init__` (with random draw `r`, clock `now`). -/
def OTPVerification.create_otp (recs : List OTPVerification) (user_id : Nat)
    (otp_type email : String) (validity_minutes r now : Nat) :
    List OTPVerification × OTPVerification :=
  let invalidated := recs.map (fun o =>
    if o.user_id = user_id ∧ o.otp_type = otp_type ∧ o.is_used = false
    then { o with is_used := true } else o)
  let new_otp := OTPVerification.init user_id otp_type email validity_minutes r now
  (invalidated ++ [new_otp], new_otp)

/-- Per-call behaviour of `verify_code`: the attempts counter always
increments, the cap never changes, a used record stays used and fails, a
success is only possible on an unused, unexpired, under-cap record with
the right code (and marks it used), and a record at or over the cap
always fails. -/
theorem verify_code_cases (o : OTPVerification) (c : String) (n : Nat) :
    (o.verify_code c n).1.attempts = o.attempts + 1 ∧
    (o.verify_code c n).1.max_attempts = o.max_attempts ∧
    (o.is_used = true →
      (o.verify_code c n).1.is_used = true ∧ (o.verify_code c n).2 = false) ∧
    ((o.verify_code c n).2 = true →
      o.is_used = false ∧ o.attempts + 1 < o.max_attempts ∧ n ≤ o.expires_at ∧
      o.otp_code = c ∧ (o.verify_code c n).1.is_used = true) ∧
    (o.max_attempts ≤ o.attempts → (o.verify_code c n).2 = false) := by
  refine ⟨?_, ?_, ?_, ?_, ?_⟩
  · unfold OTPVerification.verify_code
    dsimp only
    split_ifs <;> rfl
  · unfold OTPVerification.verify_code
    dsimp only
    split_ifs <;> rfl
  · intro hu
    simp [OTPVerification.verify_code, OTPVerification.is_valid, hu]
  · intro h
    by_cases hused : o.is_used = true
    · rw [((by simp [OTPVerification.verify_code, OTPVerification.is_valid, hused] :
        (o.verify_code c n).2 = false))] at h
      cases h
    · rw [Bool.not_eq_true] at hused
      by_cases hcap : o.attempts + 1 < o.max_attempts
      · by_cases hexp : n ≤ o.expires_at
        · by_cases hc : o.otp_code = c
          · refine ⟨hused, hcap, hexp, hc, ?_⟩
            simp [OTPVerification.verify_code, OTPVerification.is_valid,
              hused, hcap, hexp, hc]
          · rw [(by simp [OTPVerification.verify_code, OTPVerification.is_valid,
              hused, hcap, hexp, hc] : (o.verify_code c n).2 = false)] at h
            cases h
        · rw [(by simp [OTPVerification.verify_code, OTPVerification.is_valid,
            hexp] : (o.verify_code c n).2 = false)] at h
          cases h
      · rw [(by simp [OTPVerification.verify_code, OTPVerification.is_valid,
          hcap] : (o.verify_code c n).2 = false)] at h
        cases h
  · intro hcap
    have hlt : ¬ (o.attempts + 1 < o.max_attempts) := by omega
    simp [OTPVerification.verify_code, OTPVerification.is_valid, hlt]

/-- On a used record every call of a `verify_code` sequence returns
`False`. -/
theorem runVerify_used_false (o : OTPVerification)
    (calls : List (String × Nat)) (h : o.is_used = true) :
    ∀ b ∈ (runVerify o calls).2, b = false := by
  induction calls generalizing o with
  | nil => intro b hb; cases hb
  | cons p rest ih =>
    obtain ⟨c, n⟩ := p
    intro b hb
    simp only [runVerify, List.mem_cons] at hb
    rcases hb with hb | hb
    · rw [hb]; exact ((verify_code_cases o c n).2.2.1 h).2
    · exact ih _ ((verify_code_cases o c n).2.2.1 h).1 b hb

/-- Once the attempts counter has reached the cap, every call of a
`verify_code` sequence returns `False`. -/
theorem runVerify_capped_false (o : OTPVerification)
    (calls : List (String × Nat)) (h : o.max_attempts ≤ o.attempts) :
    ∀ b ∈ (runVerify o calls).2, b = false := by
  induction calls generalizing o with
  | nil => intro b hb; cases hb
  | cons p rest ih =>
    obtain ⟨c, n⟩ := p
    intro b hb
    simp only [runVerify, List.mem_cons] at hb
    rcases hb with hb | hb
    · rw [hb]; exact (verify_code_cases o c n).2.2.2.2 h
    · refine ih _ ?_ b hb
      rw [(verify_code_cases o c n).1, (verify_code_cases o c n).2.1]
      omega

/-- A `verify_code` sequence returns `True` at most once. -/
theorem runVerify_count_le_one (o : OTPVerification)
    (calls : List (String × Nat)) :
    (runVerify o calls).2.count true ≤ 1 := by
  induction calls generalizing o with
  | nil => simp [runVerify]
  | cons p rest ih =>
    obtain ⟨c, n⟩ := p
    simp only [runVerify, List.count_cons]
    cases hb : (o.verify_code c n).2 with
    | false =>
      simpa using ih (o.verify_code c n).1
    | true =>
      have hused : (o.verify_code c n).1.is_used = true :=
        ((verify_code_cases o c n).2.2.2.1 hb).2.2.2.2
      have hzero : (runVerify (o.verify_code c n).1 rest).2.count true = 0 := by
        rw [List.count_eq_zero]
        intro hmem
        exact absurd (runVerify_used_false _ rest hused true hmem) (by simp)
      simp [hzero]

/-! ## C8 -/

/-- C8: an OTP record is single-use and attempts-bounded. `verify_code`
increments the attempts counter on every call; it returns `True` only on
an unused, unexpired, under-cap record whose stored code equals the
provided one, and then marks the record used; over any sequence of calls
on the same record it returns `True` at most once; and on a used record,
or once the attempts counter has reached `max_attempts`, every call of
the sequence returns `False`. -/
theorem otp_verify_single_use :
    (∀ (o : OTPVerification) (code : String) (now : Nat),
      (o.verify_code code now).1.attempts = o.attempts + 1 ∧
      ((o.verify_code code now).2 = true →
        o.is_used = false ∧ o.attempts < o.max_attempts ∧
        now ≤ o.expires_at ∧ o.otp_code = code ∧
        (o.verify_code code now).1.is_used = true)) ∧
    (∀ (o : OTPVerification) (calls : List (String × Nat)),
      (runVerify o calls).2.count true ≤ 1) ∧
    (∀ (o : OTPVerification) (calls : List (String × Nat)),
      o.is_used = true → ∀ b ∈ (runVerify o calls).2, b = false) ∧
    (∀ (o : OTPVerification) (calls : List (String × Nat)),
      o.max_attempts ≤ o.attempts → ∀ b ∈ (runVerify o calls).2, b = false) := by
  refine ⟨fun o code now => ⟨(verify_code_cases o code now).1, fun h => ?_⟩,
    runVerify_count_le_one, runVerify_used_false, runVerify_capped_false⟩
  obtain ⟨h1, h2, h3, h4, h5⟩ := (verify_code_cases o code now).2.2.2.1 h
  exact ⟨h1, by omega, h3, h4, h5⟩

/-- C8 witness: a fresh concrete OTP record (code `"100000"`, expiring at
minute 10) verified with the right code at minute 5 succeeds, and the
theorem yields the preconditions and the used mark. -/
theorem otp_verify_single_use_witness :
    ((OTPVerification.init 1 "signup" "a@b.c" 10 0 0).verify_code "100000" 5).2
        = true ∧
    (OTPVerification.init 1 "signup" "a@b.c" 10 0 0).is_used = false ∧
    (OTPVerification.init 1 "signup" "a@b.c" 10 0 0).attempts
        < (OTPVerification.init 1 "signup" "a@b.c" 10 0 0).max_attempts ∧
    (5 : Nat) ≤ (OTPVerification.init 1 "signup" "a@b.c" 10 0 0).expires_at ∧
    (OTPVerification.init 1 "signup" "a@b.c" 10 0 0).otp_code = "100000" ∧
    ((OTPVerification.init 1 "signup" "a@b.c" 10 0 0).verify_code "100000" 5).1.is_used
        = true :=
  ⟨by decide,
   (otp_verify_single_use.1 (OTPVerification.init 1 "signup" "a@b.c" 10 0 0)
      "100000" 5).2 (by decide)⟩

/-- After the invalidation pass of `create_otp`, no pre-existing row can
satisfy the active filter for the same `(user_id, otp_type)`: rows that
matched were marked used, rows that did not match fail the filter anyway. -/
theorem activeFilter_invalidated (uid : Nat) (typ : String) (now' : Nat)
    (x : OTPVerification) :
    OTPVerification.activeFilter uid typ now'
      (if x.user_id = uid ∧ x.otp_type = typ ∧ x.is_used = false
       then { x with is_used := true } else x) = false := by
  by_cases h : x.user_id = uid ∧ x.otp_type = typ ∧ x.is_used = false
  · rw [if_pos h]
    simp [OTPVerification.activeFilter]
  · rw [if_neg h]
    by_cases h1 : x.user_id = uid
    · by_cases h2 : x.otp_type = typ
      · have h3 : x.is_used = true := by
          rcases Bool.eq_false_or_eq_true x.is_used with ht | hf
          · exact ht
          · exact absurd ⟨h1, h2, hf⟩ h
        simp [OTPVerification.activeFilter, h3]
      · simp [OTPVerification.activeFilter, h2]
    · simp [OTPVerification.activeFilter, h1]

/-- `find?` skips a prefix on which the predicate is everywhere false. -/
theorem find?_append_of_none {α : Type} (p : α → Bool) (l₁ l₂ : List α)
    (h : ∀ x ∈ l₁, p x = false) : (l₁ ++ l₂).find? p = l₂.find? p := by
  induction l₁ with
  | nil => rfl
  | cons a l ih =>
    rw [List.cons_append, List.find?_cons_of_neg]
    · exact ih (fun x hx => h x (List.mem_cons_of_mem a hx))
    · simp [h a (List.mem_cons_self a l)]

/-! ## C9 -/

/-- C9: after any `create_otp(user_id, otp_type, ...)`, every
previously-unused record of that user and type has been marked used, the
newly created record is the only one `get_active_otp` can return for that
pair (at any clock reading), and at most one row of the resulting table is
active for that pair. -/
theorem create_otp_single_active :
    ∀ (recs : List OTPVerification) (uid : Nat) (typ email : String)
      (v r now : Nat),
      (∀ o ∈ recs, o.user_id = uid → o.otp_type = typ → o.is_used = false →
        { o with is_used := true } ∈
          (OTPVerification.create_otp recs uid typ email v r now).1) ∧
      (∀ now' : Nat,
        OTPVerification.get_active_otp
            (OTPVerification.create_otp recs uid typ email v r now).1 uid typ now'
          = none ∨
        OTPVerification.get_active_otp
            (OTPVerification.create_otp recs uid typ email v r now).1 uid typ now'
          = some (OTPVerification.create_otp recs uid typ email v r now).2) ∧
      (∀ now' : Nat,
        (OTPVerification.create_otp recs uid typ email v r now).1.countP
          (OTPVerification.activeFilter uid typ now') ≤ 1) := by
  intro recs uid typ email v r now
  refine ⟨?_, ?_, ?_⟩
  · intro o ho h1 h2 h3
    unfold OTPVerification.create_otp
    dsimp only
    refine List.mem_append_left _ ?_
    rw [List.mem_map]
    exact ⟨o, ho, by rw [if_pos ⟨h1, h2, h3⟩]⟩
  · intro now'
    unfold OTPVerification.get_active_otp OTPVerification.create_otp
    dsimp only
    rw [find?_append_of_none _ _ _ (by
      intro x hx
      rw [List.mem_map] at hx
      obtain ⟨y, _, rfl⟩ := hx
      exact activeFilter_invalidated uid typ now' y)]
    cases hf : OTPVerification.activeFilter uid typ now'
        (OTPVerification.init uid typ email v r now) with
    | false => left; simp [List.find?, hf]
    | true => right; simp [List.find?, hf]
  · intro now'
    unfold OTPVerification.create_otp
    dsimp only
    rw [List.countP_append]
    have h0 : (recs.map (fun o =>
        if o.user_id = uid ∧ o.otp_type = typ ∧ o.is_used = false
        then { o with is_used := true } else o)).countP
          (OTPVerification.activeFilter uid typ now') = 0 := by
      rw [List.countP_eq_zero]
      intro x hx
      rw [List.mem_map] at hx
      obtain ⟨y, _, rfl⟩ := hx
      simp [activeFilter_invalidated uid typ now' y]
    rw [h0]
    cases hf : OTPVerification.activeFilter uid typ now'
        (OTPVerification.init uid typ email v r now) with
    | false => simp [List.countP, List.countP.go, hf]
    | true => simp [List.countP, List.countP.go, hf]

/-- A concrete pre-existing unused OTP row for user 1 / `"signup"`. -/
def otpRowW : OTPVerification :=
  { id := some 1, user_id := 1, otp_code := "111111", otp_type := "signup",
    email := "a@b.c", is_used := false, attempts := 0, max_attempts := 5,
    created_at := 0, expires_at := 10, verified_at := none }

/-- C9 witness: creating a fresh OTP for user 1 / `"signup"` over a table
holding one unused row for that pair marks that row used, and the
resulting table has at most one active row for the pair at minute 0. -/
theorem create_otp_single_active_witness :
    { otpRowW with is_used := true } ∈
      (OTPVerification.create_otp [otpRowW] 1 "signup" "a@b.c" 10 0 0).1 ∧
    (OTPVerification.create_otp [otpRowW] 1 "signup" "a@b.c" 10 0 0).1.countP
      (OTPVerification.activeFilter 1 "signup" 0) ≤ 1 :=
  ⟨(create_otp_single_active [otpRowW] 1 "signup" "a@b.c" 10 0 0).1 otpRowW
      (List.mem_singleton.mpr rfl) rfl rfl rfl,
   (create_otp_single_active [otpRowW] 1 "signup" "a@b.c" 10 0 0).2.2 0⟩

/-- The fueled digits function agrees with `Nat.digits 10` whenever the
fuel covers the number. -/
theorem decDigitsAux_eq (fuel : Nat) :
    ∀ n : Nat, n ≤ fuel → decDigitsAux fuel n = Nat.digits 10 n := by
  induction fuel with
  | zero =>
    intro n hn
    interval_cases n
    simp [decDigitsAux]
  | succ fuel ih =>
    intro n hn
    match n with
    | 0 => simp [decDigitsAux]
    | m + 1 =>
      simp only [decDigitsAux]
      rw [Nat.digits_def' (by norm_num : (1:ℕ) < 10) (Nat.succ_pos m)]
      have hdiv : (m + 1) / 10 ≤ fuel := by
        have := Nat.div_lt_self (Nat.succ_pos m) (by norm_num : 1 < 10)
        omega
      rw [ih _ hdiv]

/-- `decDigits` computes `Nat.digits 10`. -/
theorem decDigits_eq (n : Nat) : decDigits n = Nat.digits 10 n :=
  decDigitsAux_eq n n (Nat.le_refl n)

/-- Reading a decimal digit character back as a digit. -/
theorem digitChar_toNat_sub (d : Nat) (hd : d < 10) :
    (Nat.digitChar d).toNat - 48 = d := by
  interval_cases d <;> decide

/-- Decimal digit characters satisfy `Char.isDigit`. -/
theorem digitChar_isDigit (d : Nat) (hd : d < 10) :
    (Nat.digitChar d).isDigit = true := by
  interval_cases d <;> decide

/-- A nonzero decimal digit does not render as `'0'`. -/
theorem digitChar_ne_zero_char (d : Nat) (hd : d < 10) (h0 : d ≠ 0) :
    Nat.digitChar d ≠ '0' := by
  interval_cases d
  · exact absurd rfl h0
  all_goals decide

/-- Horner evaluation of a reversed little-endian digit list. -/
theorem foldl_reverse_ofDigits (l : List Nat) (acc : Nat) :
    l.reverse.foldl (fun a d => 10 * a + d) acc
      = acc * 10 ^ l.length + Nat.ofDigits 10 l := by
  induction l generalizing acc with
  | nil => simp
  | cons d ds ih =>
    rw [List.reverse_cons, List.foldl_append, ih]
    simp only [List.foldl_cons, List.foldl_nil, Nat.ofDigits_cons,
      List.length_cons]
    ring

/-- Folding the character reader over rendered digits equals folding the
digits themselves. -/
theorem foldl_digitChar_eq (l : List Nat) (hl : ∀ d ∈ l, d < 10) (acc : Nat) :
    (l.map Nat.digitChar).foldl (fun a c => 10 * a + (c.toNat - 48)) acc
      = l.foldl (fun a d => 10 * a + d) acc := by
  induction l generalizing acc with
  | nil => rfl
  | cons d ds ih =>
    simp only [List.map_cons, List.foldl_cons]
    rw [digitChar_toNat_sub d (hl d (List.mem_cons_self d ds)),
        ih (fun x hx => hl x (List.mem_cons_of_mem d hx))]

/-- Reading `natToDecString n` back yields `n`. -/
theorem decValue_natToDecString (n : Nat) (hn : n ≠ 0) :
    decValue (natToDecString n) = n := by
  unfold natToDecString decValue
  rw [if_neg hn]
  show ((decDigits n).reverse.map Nat.digitChar).foldl
      (fun acc c => 10 * acc + (c.toNat - 48)) 0 = n
  rw [foldl_digitChar_eq _ (fun d hd => by
    rw [List.mem_reverse, decDigits_eq] at hd
    exact Nat.digits_lt_base (by norm_num) hd)]
  rw [decDigits_eq, foldl_reverse_ofDigits]
  simp [Nat.ofDigits_digits]

/-- In the six-digit range the rendered string has length 6. -/
theorem natToDecString_length_six (n : Nat) (h1 : 10 ^ 5 ≤ n)
    (h2 : n < 10 ^ 6) : (natToDecString n).length = 6 := by
  have hn : n ≠ 0 := by
    have : (0:ℕ) < 10 ^ 5 := by norm_num
    omega
  unfold natToDecString
  rw [if_neg hn]
  show ((decDigits n).reverse.map Nat.digitChar).length = 6
  rw [List.length_map, List.length_reverse, decDigits_eq,
      Nat.digits_len 10 n (by norm_num) hn,
      Nat.log_eq_of_pow_le_of_lt_pow h1 h2]

/-- The rendered decimal string of a nonzero number never starts with a
zero character. -/
theorem natToDecString_head_ne_zero (n : Nat) (hn : n ≠ 0) :
    (natToDecString n).data.head? ≠ some '0' := by
  unfold natToDecString
  rw [if_neg hn]
  show ((decDigits n).reverse.map Nat.digitChar).head? ≠ some '0'
  rw [decDigits_eq, List.head?_map, ← List.getLast?_eq_head?_reverse]
  have hne : Nat.digits 10 n ≠ [] := Nat.digits_ne_nil_iff_ne_zero.mpr hn
  rw [List.getLast?_eq_getLast _ hne]
  have hmem : (Nat.digits 10 n).getLast hne ∈ Nat.digits 10 n :=
    List.getLast_mem hne
  have h10 : (Nat.digits 10 n).getLast hne < 10 :=
    Nat.digits_lt_base (by norm_num) hmem
  have h0 : (Nat.digits 10 n).getLast hne ≠ 0 :=
    Nat.getLast_digit_ne_zero 10 hn
  simp only [Option.map_some', ne_eq, Option.some.injEq]
  exact digitChar_ne_zero_char _ h10 h0

/-! ## C10 -/

/-- C10: `generate_otp` (with the random draw `r < 900000` explicit)
always returns a string of exactly six decimal digit characters, whose
read-back integer value is `r + 100000 ∈ [100000, 999999]`, so the code
never starts with a zero character; and every record built by `__init__`
carries exactly such a code. -/
theorem generate_otp_six_digits :
    ∀ r : Nat, r < 900000 →
      (OTPVerification.generate_otp r).length = 6 ∧
      (∀ ch ∈ (OTPVerification.generate_otp r).data, ch.isDigit = true) ∧
      100000 ≤ decValue (OTPVerification.generate_otp r) ∧
      decValue (OTPVerification.generate_otp r) ≤ 999999 ∧
      (OTPVerification.generate_otp r).data.head? ≠ some '0' ∧
      (∀ (uid : Nat) (typ email : String) (v now : Nat),
        (OTPVerification.init uid typ email v r now).otp_code =
          OTPVerification.generate_otp r) := by
  intro r hr
  have e5 : (10:ℕ) ^ 5 = 100000 := by norm_num
  have e6 : (10:ℕ) ^ 6 = 1000000 := by norm_num
  have hn : r + 100000 ≠ 0 := by omega
  have hval : decValue (OTPVerification.generate_otp r) = r + 100000 :=
    decValue_natToDecString (r + 100000) hn
  refine ⟨?_, ?_, ?_, ?_, ?_, fun uid typ email v now => rfl⟩
  · exact natToDecString_length_six (r + 100000) (by omega) (by omega)
  · intro ch hch
    have : ch ∈ (decDigits (r + 100000)).reverse.map Nat.digitChar := by
      have hd : (OTPVerification.generate_otp r).data
          = (decDigits (r + 100000)).reverse.map Nat.digitChar := by
        unfold OTPVerification.generate_otp natToDecString
        rw [if_neg hn]
      rw [hd] at hch
      exact hch
    rw [List.mem_map] at this
    obtain ⟨d, hd, rfl⟩ := this
    rw [List.mem_reverse, decDigits_eq] at hd
    exact digitChar_isDigit d (Nat.digits_lt_base (by norm_num) hd)
  · omega
  · omega
  · exact natToDecString_head_ne_zero (r + 100000) hn

/-- C10 witness: the draw `r = 123455` renders as a six-character digit
string of value 223455 that does not start with `'0'`. -/
theorem generate_otp_six_digits_witness :
    (123455 : Nat) < 900000 ∧
    (OTPVerification.generate_otp 123455).length = 6 ∧
    decValue (OTPVerification.generate_otp 123455) ≤ 999999 ∧
    (OTPVerification.generate_otp 123455).data.head? ≠ some '0' :=
  ⟨by decide, (generate_otp_six_digits 123455 (by decide)).1,
   (generate_otp_six_digits 123455 (by decide)).2.2.2.1,
   (generate_otp_six_digits 123455 (by decide)).2.2.2.2.1⟩
